import Mathlib

/-!
# Request dispatcher of the calendar events service (router.go)

A shallow embedding of `router.go`: the authentication gate, the method
switch and the five per-method handlers.  The collaborators that live outside
`router.go` (key provider, store operations, JSON decoder, validator, JSON
encoder, the two configuration constants) are fields of an environment record;
they are arbitrary functions, so every theorem holds for every behaviour of
them.  Store operations thread an abstract world state and every call is
appended to a call log, which is how "no store call" is stated.  Log output
(`log.Println`, `log.Printf`) is not modelled.
-/

namespace Router

/-- A non-nil Go `error` value. `Option GoError` is Go's `error` (`none` is `nil`). -/
abbrev GoError := String

/-- Go `map[string]string`, as an association list read by first match. -/
abbrev GoMap := List (String × String)

/-- Go `v, ok := m[k]`: the zero value and `false` when the key is missing. -/
def GoMap.commaOk (m : GoMap) (k : String) : String × Bool :=
  match m.lookup k with
  | some v => (v, true)
  | none => ("", false)

/-- Go `m[k]`: the empty string when the key is missing. -/
def GoMap.index (m : GoMap) (k : String) : String :=
  (m.commaOk k).1

/-- Go `m[k] = v` on the association list: overwrite the binding or add one. -/
def GoMap.set : GoMap → String → String → GoMap
  | [], k, v => [(k, v)]
  | (k0, v0) :: rest, k, v =>
    if k0 = k then (k, v) :: rest else (k0, v0) :: GoMap.set rest k v

/-- The fields of `events.APIGatewayProxyRequest` that `router.go` reads. -/
structure APIGatewayProxyRequest where
  HTTPMethod : String
  Headers : GoMap
  PathParameters : GoMap
  Body : String
deriving DecidableEq, Repr

/-- The fields of `events.APIGatewayProxyResponse` that `router.go` writes.
`Body` is the empty string when the Go literal leaves it out. -/
structure APIGatewayProxyResponse where
  StatusCode : Nat
  Headers : GoMap
  Body : String
deriving DecidableEq, Repr

/-- Modelled from the spec: type `Entity` is declared outside `router.go`;
"an opaque record with at least an identifier field (`Id`)".  The rest of the
record is kept as one uninterpreted field. -/
structure Entity where
  Id : String
  rest : String
deriving DecidableEq, Repr, Inhabited

/-- Modelled from the spec: type `NewEntity` is declared outside `router.go`;
"input payload shapes accepted from POST/PUT bodies".  Uninterpreted. -/
structure NewEntity where
  raw : String
deriving DecidableEq, Repr, Inhabited

/-- Modelled from the spec: type `UpdatedEntity` is declared outside
`router.go`; "input payload shapes accepted from POST/PUT bodies".
Uninterpreted. -/
structure UpdatedEntity where
  raw : String
deriving DecidableEq, Repr, Inhabited

/-- The values `router.go` stores in `ResponseStructure.Data` (`interface{}`):
one entity, or the collection returned by `listEntities`. -/
inductive Data where
  | entity (e : Entity)
  | entities (es : List Entity)
deriving DecidableEq, Repr

/-- `ResponseStructure` (router.go lines 15-18). `ErrorMessage` is `*string`. -/
structure ResponseStructure where
  Data : Data
  ErrorMessage : Option String
deriving DecidableEq, Repr

/-- One call to a collaborator with side effects, as recorded in the call log. -/
inductive Call where
  | getApiKey
  | listEntities
  | getEntity (id : String)
  | insertEntity (e : NewEntity)
  | updateEntity (id : String) (e : UpdatedEntity)
  | deleteEntity (id : String)
deriving DecidableEq, Repr

/-- The store operations among the calls (everything but the key provider). -/
def Call.isStore : Call → Bool
  | Call.getApiKey => false
  | _ => true

/-- Everything `router.go` uses and does not define.  Go result pairs
`(value, error)` are kept as pairs.  `insertEntity` returns an `Entity` as in
the interface of the spec (`insert(payload) -> (Entity, error)`); `getEntity`,
`updateEntity` and `deleteEntity` return `Entity or absent`. -/
structure Env (σ : Type) where
  OriginURL : String
  ApiPath : String
  getApiKey : σ → (Option String × Option GoError) × σ
  listEntities : σ → (List Entity × Option GoError) × σ
  getEntity : String → σ → (Option Entity × Option GoError) × σ
  insertEntity : NewEntity → σ → (Entity × Option GoError) × σ
  updateEntity : String → UpdatedEntity → σ → (Option Entity × Option GoError) × σ
  deleteEntity : String → σ → (Option Entity × Option GoError) × σ
  unmarshalNewEntity : String → NewEntity × Option GoError
  unmarshalUpdatedEntity : String → UpdatedEntity × Option GoError
  validateNewEntity : NewEntity → Option GoError
  validateUpdatedEntity : UpdatedEntity → Option GoError
  jsonMarshal : ResponseStructure → String × Option GoError

/-- The state threaded through one invocation: the world of the collaborators
and the log of the calls made so far. -/
structure Run (σ : Type) where
  world : σ
  calls : List Call

/-- What a handler returns: the Go pair `(response, error)` and the new state. -/
abbrev Outcome (σ : Type) := (APIGatewayProxyResponse × Option GoError) × Run σ

variable {σ : Type}

def callGetApiKey (env : Env σ) (s : Run σ) : (Option String × Option GoError) × Run σ :=
  ((env.getApiKey s.world).1,
    { world := (env.getApiKey s.world).2, calls := s.calls ++ [Call.getApiKey] })

def callListEntities (env : Env σ) (s : Run σ) : (List Entity × Option GoError) × Run σ :=
  ((env.listEntities s.world).1,
    { world := (env.listEntities s.world).2, calls := s.calls ++ [Call.listEntities] })

def callGetEntity (env : Env σ) (id : String) (s : Run σ) :
    (Option Entity × Option GoError) × Run σ :=
  ((env.getEntity id s.world).1,
    { world := (env.getEntity id s.world).2, calls := s.calls ++ [Call.getEntity id] })

def callInsertEntity (env : Env σ) (e : NewEntity) (s : Run σ) :
    (Entity × Option GoError) × Run σ :=
  ((env.insertEntity e s.world).1,
    { world := (env.insertEntity e s.world).2, calls := s.calls ++ [Call.insertEntity e] })

def callUpdateEntity (env : Env σ) (id : String) (e : UpdatedEntity) (s : Run σ) :
    (Option Entity × Option GoError) × Run σ :=
  ((env.updateEntity id e s.world).1,
    { world := (env.updateEntity id e s.world).2,
      calls := s.calls ++ [Call.updateEntity id e] })

def callDeleteEntity (env : Env σ) (id : String) (s : Run σ) :
    (Option Entity × Option GoError) × Run σ :=
  ((env.deleteEntity id s.world).1,
    { world := (env.deleteEntity id s.world).2, calls := s.calls ++ [Call.deleteEntity id] })

/-- The package variable `headers` (router.go lines 22-25). -/
def headers (env : Env σ) : GoMap :=
  [("Access-Control-Allow-Origin", env.OriginURL),
   ("Access-Control-Allow-Headers", "Content-Type")]

/-- Modelled from the spec: `mergeHeaders` is defined outside `router.go`;
"two instances merge by key, with the second instance's values overriding the
first's on collision".  Every binding of the first map is copied into a fresh
map, then every binding of the second. -/
def mergeHeaders (baseHeaders additionalHeaders : GoMap) : GoMap :=
  additionalHeaders.foldl (fun m kv => GoMap.set m kv.1 kv.2)
    (baseHeaders.foldl (fun m kv => GoMap.set m kv.1 kv.2) [])

/-- Modelled from the spec: `clientError` is defined outside `router.go`;
"Client-error path (4xx): emit the given status code with an empty body and
the standard header set, bypassing the envelope entirely". -/
def clientError (env : Env σ) (status : Nat) : APIGatewayProxyResponse × Option GoError :=
  ({ StatusCode := status, Headers := headers env, Body := "" }, none)

/-- Modelled from the spec: `serverError` is defined outside `router.go`;
"Server-error path (5xx): emit status 500 with an empty body and standard
headers; the underlying error is logged, never exposed to the caller". -/
def serverError (env : Env σ) (_err : GoError) : APIGatewayProxyResponse × Option GoError :=
  ({ StatusCode := 500, Headers := headers env, Body := "" }, none)

/-- Go `fmt.Sprintf("/%s/%s", ApiPath, entity.Id)`. -/
def location (env : Env σ) (entity : Entity) : String :=
  "/" ++ env.ApiPath ++ "/" ++ entity.Id

/-- `processOptions` (router.go lines 72-83). -/
def processOptions (env : Env σ) (s : Run σ) : Outcome σ :=
  (({ StatusCode := 200
      Headers := mergeHeaders (headers env)
        [("Access-Control-Allow-Methods", "OPTIONS, POST, GET, PUT, DELETE"),
         ("Access-Control-Max-Age", "3600")]
      Body := "" }, none), s)

/-- `processGetEntityById` (router.go lines 94-122). -/
def processGetEntityById (env : Env σ) (id : String) (s : Run σ) : Outcome σ :=
  match callGetEntity env id s with
  | ((_, some err), s1) => (serverError env err, s1)
  | ((none, none), s1) => (clientError env 404, s1)
  | ((some entity, none), s1) =>
    match env.jsonMarshal { Data := Data.entity entity, ErrorMessage := none } with
    | (_, some err) => (serverError env err, s1)
    | (responseJson, none) =>
      (({ StatusCode := 200, Body := responseJson, Headers := headers env }, none), s1)

/-- `processGetAll` (router.go lines 124-148). -/
def processGetAll (env : Env σ) (s : Run σ) : Outcome σ :=
  match callListEntities env s with
  | ((_, some err), s1) => (serverError env err, s1)
  | ((entities, none), s1) =>
    match env.jsonMarshal { Data := Data.entities entities, ErrorMessage := none } with
    | (_, some err) => (serverError env err, s1)
    | (responseJson, none) =>
      (({ StatusCode := 200, Body := responseJson, Headers := headers env }, none), s1)

/-- `processGet` (router.go lines 85-92). -/
def processGet (env : Env σ) (req : APIGatewayProxyRequest) (s : Run σ) : Outcome σ :=
  match req.PathParameters.commaOk "id" with
  | (id, true) => processGetEntityById env id s
  | (_, false) => processGetAll env s

/-- `processPost` (router.go lines 150-192). -/
def processPost (env : Env σ) (req : APIGatewayProxyRequest) (s : Run σ) : Outcome σ :=
  match env.unmarshalNewEntity req.Body with
  | (_, some _) => (clientError env 422, s)
  | (createdEntity, none) =>
    match env.validateNewEntity createdEntity with
    | some _ => (clientError env 400, s)
    | none =>
      match callInsertEntity env createdEntity s with
      | ((_, some err), s1) => (serverError env err, s1)
      | ((entity, none), s1) =>
        match env.jsonMarshal { Data := Data.entity entity, ErrorMessage := none } with
        | (_, some err) => (serverError env err, s1)
        | (responseJson, none) =>
          (({ StatusCode := 201
              Body := responseJson
              Headers := mergeHeaders (headers env) [("Location", location env entity)] },
            none), s1)

/-- `processPut` (router.go lines 194-246). -/
def processPut (env : Env σ) (req : APIGatewayProxyRequest) (s : Run σ) : Outcome σ :=
  match req.PathParameters.commaOk "id" with
  | (_, false) => (clientError env 400, s)
  | (id, true) =>
    match env.unmarshalUpdatedEntity req.Body with
    | (_, some _) => (clientError env 422, s)
    | (updatedEntity, none) =>
      match env.validateUpdatedEntity updatedEntity with
      | some _ => (clientError env 400, s)
      | none =>
        match callUpdateEntity env id updatedEntity s with
        | ((_, some err), s1) => (serverError env err, s1)
        | ((none, none), s1) => (clientError env 404, s1)
        | ((some entity, none), s1) =>
          match env.jsonMarshal { Data := Data.entity entity, ErrorMessage := none } with
          | (_, some err) => (serverError env err, s1)
          | (responseJson, none) =>
            (({ StatusCode := 200
                Body := responseJson
                Headers := mergeHeaders (headers env) [("Location", location env entity)] },
              none), s1)

/-- `processDelete` (router.go lines 248-281). -/
def processDelete (env : Env σ) (req : APIGatewayProxyRequest) (s : Run σ) : Outcome σ :=
  match req.PathParameters.commaOk "id" with
  | (_, false) => (clientError env 400, s)
  | (id, true) =>
    match callDeleteEntity env id s with
    | ((_, some err), s1) => (serverError env err, s1)
    | ((none, none), s1) => (clientError env 404, s1)
    | ((some entity, none), s1) =>
      match env.jsonMarshal { Data := Data.entity entity, ErrorMessage := none } with
      | (_, some err) => (serverError env err, s1)
      | (responseJson, none) =>
        (({ StatusCode := 200, Body := responseJson, Headers := headers env }, none), s1)

/-- The value of `providedApiKey` at router.go line 37 (lines 30-35): the
header `x-api-key`, or the header `X-Api-Key` when the former reads as the
empty string. -/
def providedApiKey (req : APIGatewayProxyRequest) : String :=
  if req.Headers.index "x-api-key" = "" then req.Headers.index "X-Api-Key"
  else req.Headers.index "x-api-key"

/-- The `switch req.HTTPMethod` of `router` (router.go lines 55-69). -/
def dispatch (env : Env σ) (req : APIGatewayProxyRequest) (s : Run σ) : Outcome σ :=
  if req.HTTPMethod = "GET" then processGet env req s
  else if req.HTTPMethod = "POST" then processPost env req s
  else if req.HTTPMethod = "DELETE" then processDelete env req s
  else if req.HTTPMethod = "PUT" then processPut env req s
  else if req.HTTPMethod = "OPTIONS" then processOptions env s
  else (clientError env 405, s)

/-- `router` (router.go lines 27-70). -/
def router (env : Env σ) (req : APIGatewayProxyRequest) (s : Run σ) : Outcome σ :=
  match callGetApiKey env s with
  | ((_, some err), s1) => (serverError env err, s1)
  | ((none, none), s1) => (serverError env "router() error: apiKey not found", s1)
  | ((some apiKey, none), s1) =>
    if providedApiKey req ≠ apiKey then (clientError env 401, s1)
    else dispatch env req s1

/-- The request passes the authentication gate in state `s`: the key provider
returns a key and no error, and the provided key equals it. -/
def Authenticated (env : Env σ) (req : APIGatewayProxyRequest) (s : Run σ) : Prop :=
  (env.getApiKey s.world).1 = (some (providedApiKey req), none)

/-- The state in which the method switch runs: after the key provider call. -/
def afterKey (env : Env σ) (s : Run σ) : Run σ :=
  (callGetApiKey env s).2

/-! ## Concrete environment used for evaluation -/

/-- A store over a list of entities; the key provider returns `key`. Decoding
fails on the body made of one opening brace, validation fails on payloads shorter than 2. -/
def sampleEnv (key : Option String) (keyErr : Option GoError) : Env (List Entity) where
  OriginURL := "*"
  ApiPath := "events"
  getApiKey := fun w => ((key, keyErr), w)
  listEntities := fun w => ((w, none), w)
  getEntity := fun id w => ((w.find? (fun e => e.Id = id), none), w)
  insertEntity := fun e w => (({ Id := "n1", rest := e.raw }, none), w ++ [{ Id := "n1", rest := e.raw }])
  updateEntity := fun id e w =>
    (((w.find? (fun x => x.Id = id)).map (fun x => { x with rest := e.raw }), none),
      w.map (fun x => if x.Id = id then { x with rest := e.raw } else x))
  deleteEntity := fun id w => ((w.find? (fun e => e.Id = id), none), w.filter (fun e => e.Id ≠ id))
  unmarshalNewEntity := fun b => if b = "\x7b" then (default, some "unexpected end of JSON input") else ({ raw := b }, none)
  unmarshalUpdatedEntity := fun b => if b = "\x7b" then (default, some "unexpected end of JSON input") else ({ raw := b }, none)
  validateNewEntity := fun e => if e.raw.length < 2 then some "min" else none
  validateUpdatedEntity := fun e => if e.raw.length < 2 then some "min" else none
  jsonMarshal := fun r =>
    match r.Data with
    | Data.entity e => (e.Id ++ ":" ++ e.rest, none)
    | Data.entities es => (String.intercalate "," (es.map (fun e => e.Id)), none)

/-- The initial state: world `w`, empty call log. -/
def start (w : σ) : Run σ := { world := w, calls := [] }

/-- The response is one of the three shapes of the dispatcher: an envelope
`{data, errorMessage: null}` under status 200 or 201, the body-less 200 of
OPTIONS, or a bare failure status with an empty body. -/
def Complete (env : Env σ) (req : APIGatewayProxyRequest) (r : APIGatewayProxyResponse) : Prop :=
  (∃ d : Data, (r.StatusCode = 200 ∨ r.StatusCode = 201) ∧
      env.jsonMarshal { Data := d, ErrorMessage := none } = (r.Body, none)) ∨
  (req.HTTPMethod = "OPTIONS" ∧ r.StatusCode = 200 ∧ r.Body = "") ∨
  (r.StatusCode ∈ [400, 401, 404, 405, 422, 500] ∧ r.Body = "")

/-- The store of `sampleEnv` fails on `listEntities`. -/
def listFailsEnv (key : Option String) : Env (List Entity) :=
  { sampleEnv key none with listEntities := fun w => (([], some "store unavailable"), w) }

/-- The encoder of `sampleEnv` fails on every value. -/
def marshalFailsEnv (key : Option String) : Env (List Entity) :=
  { sampleEnv key none with jsonMarshal := fun _ => ("", some "json: unsupported value") }

/-- A request with method `m`, key header `x-api-key: k`, path parameters `pp`
and body `b`. -/
def keyed (m k : String) (pp : GoMap) (b : String) : APIGatewayProxyRequest :=
  { HTTPMethod := m, Headers := [("x-api-key", k)], PathParameters := pp, Body := b }

/-- The unauthenticated GET request with no header at all. -/
def bareGet : APIGatewayProxyRequest :=
  { HTTPMethod := "GET", Headers := [], PathParameters := [], Body := "" }

/-- A request that carries both spellings of the key header with different
values. -/
def twoSpellings : APIGatewayProxyRequest :=
  { HTTPMethod := "GET"
    Headers := [("x-api-key", "wrong"), ("X-Api-Key", "secret")]
    PathParameters := []
    Body := "" }

/-- A request that carries only the title-case spelling. -/
def titleCase (m k : String) : APIGatewayProxyRequest :=
  { HTTPMethod := m, Headers := [("X-Api-Key", k)], PathParameters := [], Body := "" }

/-- One stored entity. -/
def ev1 : Entity := { Id := "e1", rest := "standup" }

/-! ## Basic facts about the gate -/

theorem afterKey_calls (env : Env σ) (s : Run σ) :
    (afterKey env s).calls = s.calls ++ [Call.getApiKey] := rfl

theorem afterKey_world (env : Env σ) (s : Run σ) :
    (afterKey env s).world = (env.getApiKey s.world).2 := rfl

/-- With a key and no error from the key provider, `router` is the comparison
of line 50 followed by the method switch. -/
theorem router_of_key (env : Env σ) (req : APIGatewayProxyRequest) (s : Run σ) (key : String)
    (hkey : (env.getApiKey s.world).1 = (some key, none)) :
    router env req s =
      if providedApiKey req ≠ key then (clientError env 401, afterKey env s)
      else dispatch env req (afterKey env s) := by
  simp [router, callGetApiKey, hkey, afterKey]

theorem router_of_authenticated (env : Env σ) (req : APIGatewayProxyRequest) (s : Run σ)
    (hauth : Authenticated env req s) :
    router env req s = dispatch env req (afterKey env s) := by
  rw [router_of_key env req s (providedApiKey req) hauth]
  simp

/-- C1, as stated, fails: the key provider returns the empty string as key
without error, the request carries neither `x-api-key` nor `X-Api-Key`, and
`router` answers 200 after calling `listEntities`. -/
theorem C1_counterexample :
    ((sampleEnv (some "") none).getApiKey []).1 = (some "", none) ∧
    bareGet.Headers.lookup "x-api-key" = none ∧
    bareGet.Headers.lookup "X-Api-Key" = none ∧
    (router (sampleEnv (some "") none) bareGet (start [])).1.1.StatusCode = 200 ∧
    (router (sampleEnv (some "") none) bareGet (start [])).2.calls =
      [Call.getApiKey, Call.listEntities] := by
  decide

/-- C1 (amended): when the key provider returns a key without error and the
provided key (the value read from `x-api-key`, or from `X-Api-Key` when the
former reads as empty, the empty string when both are missing) differs from
that key, `router` returns the client error 401, whatever the method, and the
only call made is the key provider call: no store operation is invoked. -/
theorem C1_mismatch_unauthorized (env : Env σ) (req : APIGatewayProxyRequest) (s : Run σ)
    (key : String)
    (hkey : (env.getApiKey s.world).1 = (some key, none))
    (hne : providedApiKey req ≠ key) :
    (router env req s).1 = clientError env 401 ∧
    (router env req s).1.1.StatusCode = 401 ∧
    (router env req s).2.calls = s.calls ++ [Call.getApiKey] ∧
    (∀ c, c ∈ (router env req s).2.calls → c.isStore = true → c ∈ s.calls) := by
  rw [router_of_key env req s key hkey]
  simp [hne, clientError, afterKey_calls]
  intro c hc hs
  rcases hc with hc | hc
  · exact hc
  · subst hc
    simp [Call.isStore] at hs

/-- Witness of C1 (amended): an OPTIONS request with a wrong key and a POST
request without any key header, against the key `secret`. -/
theorem C1_mismatch_unauthorized_witness :
    (router (sampleEnv (some "secret") none) (keyed "OPTIONS" "wrong" [] "") (start [ev1])).1.1.StatusCode
      = 401 ∧
    (router (sampleEnv (some "secret") none)
      { HTTPMethod := "POST", Headers := [], PathParameters := [], Body := "standup" }
      (start [ev1])).2.calls = [Call.getApiKey] :=
  ⟨(C1_mismatch_unauthorized (sampleEnv (some "secret") none) (keyed "OPTIONS" "wrong" [] "")
      (start [ev1]) "secret" rfl (by decide)).2.1,
   (C1_mismatch_unauthorized (sampleEnv (some "secret") none)
      { HTTPMethod := "POST", Headers := [], PathParameters := [], Body := "standup" }
      (start [ev1]) "secret" rfl (by decide)).2.2.1⟩

/-- C8: if the key provider returns an error, or no error and no key, `router`
returns the server fault (status 500, empty body) whatever the request, its
method and its key headers are; the method switch is not entered and the only
call made is the key provider call. -/
theorem C8_key_provider_fault (env : Env σ) (req : APIGatewayProxyRequest) (s : Run σ)
    (hfault : (env.getApiKey s.world).1.2 ≠ none ∨ (env.getApiKey s.world).1 = (none, none)) :
    (∃ err, (router env req s).1 = serverError env err) ∧
    (router env req s).1.1.StatusCode = 500 ∧
    (router env req s).1.1.Body = "" ∧
    (router env req s).1.1.Headers = headers env ∧
    (router env req s).2.calls = s.calls ++ [Call.getApiKey] ∧
    (router env req s).2.world = (env.getApiKey s.world).2 := by
  rcases hk : (env.getApiKey s.world).1 with ⟨k, e⟩
  rcases hfault with h | h
  · rw [hk] at h
    cases e with
    | none => exact absurd rfl h
    | some err =>
      refine ⟨⟨err, ?_⟩, ?_, ?_, ?_, ?_, ?_⟩ <;>
        simp [router, callGetApiKey, hk, serverError]
  · refine ⟨⟨"router() error: apiKey not found", ?_⟩, ?_, ?_, ?_, ?_, ?_⟩ <;>
      simp [router, callGetApiKey, h, serverError]

/-- Witness of C8: the provider fails while the request carries the right key
on a GET, and the provider has no key on a DELETE. -/
theorem C8_key_provider_fault_witness :
    (router (sampleEnv (some "secret") (some "ssm timeout")) (keyed "GET" "secret" [] "")
      (start [ev1])).1.1.StatusCode = 500 ∧
    (router (sampleEnv none none) (keyed "DELETE" "" [("id", "e1")] "") (start [ev1])).2.calls
      = [Call.getApiKey] :=
  ⟨(C8_key_provider_fault (sampleEnv (some "secret") (some "ssm timeout"))
      (keyed "GET" "secret" [] "") (start [ev1]) (Or.inl (by decide))).2.1,
   (C8_key_provider_fault (sampleEnv none none) (keyed "DELETE" "" [("id", "e1")] "")
      (start [ev1]) (Or.inr rfl)).2.2.2.2.1⟩

/-- C4: for an authenticated request whose method is none of GET, POST, PUT,
DELETE, OPTIONS, `router` returns the client error 405 with an empty body, and
the only call made is the key provider call: no store operation is invoked. -/
theorem C4_method_not_allowed (env : Env σ) (req : APIGatewayProxyRequest) (s : Run σ)
    (hauth : Authenticated env req s)
    (hm : req.HTTPMethod ∉ ["GET", "POST", "PUT", "DELETE", "OPTIONS"]) :
    (router env req s).1 = clientError env 405 ∧
    (router env req s).1.1.StatusCode = 405 ∧
    (router env req s).1.1.Body = "" ∧
    (router env req s).2.calls = s.calls ++ [Call.getApiKey] := by
  rw [router_of_authenticated env req s hauth]
  simp at hm
  simp [dispatch, hm, clientError, afterKey_calls]

/-- Witness of C4: an authenticated PATCH, and an authenticated lower-case
`get`. -/
theorem C4_method_not_allowed_witness :
    (router (sampleEnv (some "secret") none) (keyed "PATCH" "secret" [("id", "e1")] "standup")
      (start [ev1])).1.1.StatusCode = 405 ∧
    (router (sampleEnv (some "secret") none) (keyed "get" "secret" [] "") (start [ev1])).2.calls
      = [Call.getApiKey] :=
  ⟨(C4_method_not_allowed (sampleEnv (some "secret") none)
      (keyed "PATCH" "secret" [("id", "e1")] "standup") (start [ev1]) rfl (by decide)).2.1,
   (C4_method_not_allowed (sampleEnv (some "secret") none) (keyed "get" "secret" [] "")
      (start [ev1]) rfl (by decide)).2.2.2⟩

/-- C2: for an authenticated POST the status is 422 exactly when the body
fails JSON decoding into `NewEntity`, and 400 exactly when the body decodes and
the decoded payload fails validation; in both cases the only call made is the
key provider call, so `insertEntity` is not called. -/
theorem C2_post_decode_vs_validate (env : Env σ) (req : APIGatewayProxyRequest) (s : Run σ)
    (hauth : Authenticated env req s) (hm : req.HTTPMethod = "POST") :
    ((router env req s).1.1.StatusCode = 422 ↔ (env.unmarshalNewEntity req.Body).2 ≠ none) ∧
    ((router env req s).1.1.StatusCode = 400 ↔
      ((env.unmarshalNewEntity req.Body).2 = none ∧
        env.validateNewEntity (env.unmarshalNewEntity req.Body).1 ≠ none)) ∧
    (((env.unmarshalNewEntity req.Body).2 ≠ none ∨
        env.validateNewEntity (env.unmarshalNewEntity req.Body).1 ≠ none) →
      (router env req s).1.1.Body = "" ∧
      (router env req s).2.calls = s.calls ++ [Call.getApiKey]) := by
  rw [router_of_authenticated env req s hauth]
  simp only [dispatch, hm]
  simp only [processPost]
  rcases hd : env.unmarshalNewEntity req.Body with ⟨ne, de⟩
  cases de with
  | some e => simp [clientError, afterKey_calls]
  | none =>
    cases hv : env.validateNewEntity ne with
    | some e => simp [hv, clientError, afterKey_calls]
    | none =>
      rcases hi : (env.insertEntity ne (afterKey env s).world).1 with ⟨ent, ie⟩
      cases ie with
      | some e => simp [hv, callInsertEntity, hi, serverError]
      | none =>
        rcases hj : env.jsonMarshal { Data := Data.entity ent, ErrorMessage := none } with ⟨b, je⟩
        cases je <;> simp [hv, callInsertEntity, hi, hj, serverError]

/-- Witness of C2: the malformed body (one opening brace) is answered with 422,
the body `a` (decodes, too short to validate) with 400, and in the latter case
only the key provider was called. -/
theorem C2_post_decode_vs_validate_witness :
    (router (sampleEnv (some "secret") none) (keyed "POST" "secret" [] "\x7b") (start [])).1.1.StatusCode
      = 422 ∧
    (router (sampleEnv (some "secret") none) (keyed "POST" "secret" [] "a") (start [])).1.1.StatusCode
      = 400 ∧
    (router (sampleEnv (some "secret") none) (keyed "POST" "secret" [] "a") (start [])).2.calls
      = [Call.getApiKey] :=
  ⟨(C2_post_decode_vs_validate (sampleEnv (some "secret") none) (keyed "POST" "secret" [] "\x7b")
      (start []) rfl rfl).1.mpr (by decide),
   (C2_post_decode_vs_validate (sampleEnv (some "secret") none) (keyed "POST" "secret" [] "a")
      (start []) rfl rfl).2.1.mpr ⟨by decide, by decide⟩,
   ((C2_post_decode_vs_validate (sampleEnv (some "secret") none) (keyed "POST" "secret" [] "a")
      (start []) rfl rfl).2.2 (Or.inr (by decide))).2⟩

/-- C3: for an authenticated PUT or DELETE whose path parameters have no `id`
entry, `router` returns the client error 400 with an empty body whatever the
request body is, and the only call made is the key provider call: no store
operation is invoked. -/
theorem C3_missing_id_bad_request (env : Env σ) (req : APIGatewayProxyRequest) (s : Run σ)
    (hauth : Authenticated env req s)
    (hm : req.HTTPMethod = "PUT" ∨ req.HTTPMethod = "DELETE")
    (hid : req.PathParameters.lookup "id" = none) :
    (router env req s).1 = clientError env 400 ∧
    (router env req s).1.1.StatusCode = 400 ∧
    (router env req s).1.1.Body = "" ∧
    (router env req s).2.calls = s.calls ++ [Call.getApiKey] := by
  rw [router_of_authenticated env req s hauth]
  rcases hm with hm | hm
  · simp [dispatch, hm, processPut, GoMap.commaOk, hid, clientError, afterKey_calls]
  · simp [dispatch, hm, processDelete, GoMap.commaOk, hid, clientError, afterKey_calls]

/-- Witness of C3: a PUT without id and with a malformed body, and a DELETE
without id. -/
theorem C3_missing_id_bad_request_witness :
    (router (sampleEnv (some "secret") none) (keyed "PUT" "secret" [] "\x7b") (start [ev1])).1.1.StatusCode
      = 400 ∧
    (router (sampleEnv (some "secret") none) (keyed "DELETE" "secret" [("name", "e1")] "")
      (start [ev1])).2.calls = [Call.getApiKey] :=
  ⟨(C3_missing_id_bad_request (sampleEnv (some "secret") none) (keyed "PUT" "secret" [] "\x7b")
      (start [ev1]) rfl (Or.inl rfl) rfl).2.1,
   (C3_missing_id_bad_request (sampleEnv (some "secret") none)
      (keyed "DELETE" "secret" [("name", "e1")] "") (start [ev1]) rfl (Or.inr rfl) rfl).2.2.2⟩

/-- C5: for an authenticated request that carries the path identifier `id`,
if it is a GET and `getEntity` returns no error and no entity, or a PUT whose
body decodes and validates and `updateEntity` returns no error and no entity,
or a DELETE and `deleteEntity` returns no error and no entity, then `router`
returns the client error 404 with an empty body. -/
theorem C5_absent_not_found (env : Env σ) (req : APIGatewayProxyRequest) (s : Run σ)
    (id : String)
    (hauth : Authenticated env req s)
    (hid : req.PathParameters.lookup "id" = some id)
    (hcase :
      (req.HTTPMethod = "GET" ∧
        (env.getEntity id (afterKey env s).world).1 = (none, none)) ∨
      (req.HTTPMethod = "PUT" ∧
        (env.unmarshalUpdatedEntity req.Body).2 = none ∧
        env.validateUpdatedEntity (env.unmarshalUpdatedEntity req.Body).1 = none ∧
        (env.updateEntity id (env.unmarshalUpdatedEntity req.Body).1
          (afterKey env s).world).1 = (none, none)) ∨
      (req.HTTPMethod = "DELETE" ∧
        (env.deleteEntity id (afterKey env s).world).1 = (none, none))) :
    (router env req s).1 = clientError env 404 ∧
    (router env req s).1.1.StatusCode = 404 ∧
    (router env req s).1.1.Body = "" := by
  rw [router_of_authenticated env req s hauth]
  rcases hcase with ⟨hm, hg⟩ | ⟨hm, hd, hv, hu⟩ | ⟨hm, hd⟩
  · simp [dispatch, hm, processGet, GoMap.commaOk, hid, processGetEntityById, callGetEntity, hg,
      clientError]
  · rcases hb : env.unmarshalUpdatedEntity req.Body with ⟨ue, de⟩
    rw [hb] at hd hv hu
    simp only at hd hv hu
    subst hd
    simp [dispatch, hm, processPut, GoMap.commaOk, hid, hb, hv, callUpdateEntity, hu,
      clientError]
  · simp [dispatch, hm, processDelete, GoMap.commaOk, hid, callDeleteEntity, hd, clientError]

/-- Witness of C5: GET, PUT and DELETE of the identifier `missing-id` against
a store that holds only `e1`. -/
theorem C5_absent_not_found_witness :
    (router (sampleEnv (some "secret") none) (keyed "GET" "secret" [("id", "missing-id")] "")
      (start [ev1])).1.1.StatusCode = 404 ∧
    (router (sampleEnv (some "secret") none) (keyed "PUT" "secret" [("id", "missing-id")] "retro")
      (start [ev1])).1.1.StatusCode = 404 ∧
    (router (sampleEnv (some "secret") none) (keyed "DELETE" "secret" [("id", "missing-id")] "")
      (start [ev1])).1.1.Body = "" :=
  ⟨(C5_absent_not_found (sampleEnv (some "secret") none)
      (keyed "GET" "secret" [("id", "missing-id")] "") (start [ev1]) "missing-id" rfl rfl
      (Or.inl ⟨rfl, by decide⟩)).2.1,
   (C5_absent_not_found (sampleEnv (some "secret") none)
      (keyed "PUT" "secret" [("id", "missing-id")] "retro") (start [ev1]) "missing-id" rfl rfl
      (Or.inr (Or.inl ⟨rfl, by decide, by decide, by decide⟩))).2.1,
   (C5_absent_not_found (sampleEnv (some "secret") none)
      (keyed "DELETE" "secret" [("id", "missing-id")] "") (start [ev1]) "missing-id" rfl rfl
      (Or.inr (Or.inr ⟨rfl, by decide⟩))).2.2⟩

/-! ## Shape of the responses of the method switch -/

/-- The method switch answers with one of seven status codes; 401 is not
among them. -/
theorem dispatch_status (env : Env σ) (req : APIGatewayProxyRequest) (s : Run σ) :
    (dispatch env req s).1.1.StatusCode ∈ [200, 201, 400, 404, 405, 422, 500] := by
  unfold dispatch processGet processPost processPut processDelete processOptions
    processGetEntityById processGetAll
  (repeat' split) <;> simp [clientError, serverError]

/-- Every response of the method switch is complete. -/
theorem dispatch_complete (env : Env σ) (req : APIGatewayProxyRequest) (s : Run σ) :
    Complete env req (dispatch env req s).1.1 := by
  unfold dispatch processGet processPost processPut processDelete processOptions
    processGetEntityById processGetAll
  (repeat' split) <;> simp_all [Complete, clientError, serverError] <;>
    exact ⟨_, by assumption⟩

/-- The header set of the create and update responses, binding by binding. -/
theorem mergeHeaders_location (env : Env σ) (loc : String) :
    mergeHeaders (headers env) [("Location", loc)] =
      [("Access-Control-Allow-Origin", env.OriginURL),
       ("Access-Control-Allow-Headers", "Content-Type"),
       ("Location", loc)] := by
  simp [mergeHeaders, headers, GoMap.set]

/-- C6, as stated, fails: an authenticated GET without path identifier whose
`listEntities` call returns an error is answered with 500, not 200. -/
theorem C6_counterexample :
    Authenticated (listFailsEnv (some "secret")) (keyed "GET" "secret" [] "") (start [ev1]) ∧
    (keyed "GET" "secret" [] "").PathParameters.lookup "id" = none ∧
    (router (listFailsEnv (some "secret")) (keyed "GET" "secret" [] "") (start [ev1])).1.1.StatusCode
      = 500 ∧
    (router (listFailsEnv (some "secret")) (keyed "GET" "secret" [] "") (start [ev1])).1.1.StatusCode
      ≠ 200 := by
  refine ⟨rfl, ?_, ?_, ?_⟩ <;> decide

/-- C6 (amended): for an authenticated GET without path identifier, the only
store call is `listEntities`; if it returns a collection without error and the
envelope `{data: <collection>, errorMessage: null}` is encoded without error,
the response is 200 with that envelope as body and the standard headers, also
for the empty collection; if the store call or the encoding fails, the
response is the server fault 500 with an empty body; the status is never 404. -/
theorem C6_list_never_not_found (env : Env σ) (req : APIGatewayProxyRequest) (s : Run σ)
    (hauth : Authenticated env req s) (hm : req.HTTPMethod = "GET")
    (hid : req.PathParameters.lookup "id" = none) :
    (∀ es body, (env.listEntities (afterKey env s).world).1 = (es, none) →
      env.jsonMarshal { Data := Data.entities es, ErrorMessage := none } = (body, none) →
      (router env req s).1.1 = { StatusCode := 200, Body := body, Headers := headers env }) ∧
    (((env.listEntities (afterKey env s).world).1.2 ≠ none ∨
        (env.jsonMarshal { Data := Data.entities (env.listEntities (afterKey env s).world).1.1,
                           ErrorMessage := none }).2 ≠ none) →
      (router env req s).1.1.StatusCode = 500 ∧ (router env req s).1.1.Body = "") ∧
    (router env req s).1.1.StatusCode ≠ 404 ∧
    (router env req s).2.calls = s.calls ++ [Call.getApiKey, Call.listEntities] := by
  rw [router_of_authenticated env req s hauth]
  simp only [dispatch, hm, processGet, GoMap.commaOk, hid, processGetAll, callListEntities]
  rcases hl : (env.listEntities (afterKey env s).world).1 with ⟨es, le⟩
  cases le with
  | some e => simp [hl, serverError, afterKey_calls]
  | none =>
    rcases hj : env.jsonMarshal { Data := Data.entities es, ErrorMessage := none } with ⟨b, je⟩
    cases je with
    | some e =>
      simp [hl, hj, serverError, afterKey_calls]
      intro es2 body h1 h2
      subst h1
      rw [hj] at h2
      simp at h2
    | none =>
      simp only [hl, hj, afterKey_calls]
      refine ⟨?_, ?_, ?_, ?_⟩
      · intro es2 body h1 h2
        simp only [Prod.mk.injEq] at h1
        obtain ⟨rfl, -⟩ := h1
        rw [hj] at h2
        simp only [Prod.mk.injEq] at h2
        simp [h2.1]
      · simp
      · simp
      · simp

/-- Witness of C6 (amended): the empty store gives 200 with the envelope of the
empty collection. -/
theorem C6_list_never_not_found_witness :
    (router (sampleEnv (some "secret") none) (keyed "GET" "secret" [] "") (start [])).1.1 =
      { StatusCode := 200, Body := "", Headers := headers (sampleEnv (some "secret") none) } ∧
    (router (sampleEnv (some "secret") none) (keyed "GET" "secret" [] "") (start [])).1.1.StatusCode
      ≠ 404 :=
  ⟨(C6_list_never_not_found (sampleEnv (some "secret") none) (keyed "GET" "secret" [] "")
      (start []) rfl rfl rfl).1 [] "" rfl rfl,
   (C6_list_never_not_found (sampleEnv (some "secret") none) (keyed "GET" "secret" [] "")
      (start []) rfl rfl rfl).2.2.1⟩

/-- C7, as stated, fails: an authenticated POST whose body decodes and
validates and whose insert succeeds is answered with 500, not 201, when the
encoding of the envelope fails. -/
theorem C7_counterexample :
    Authenticated (marshalFailsEnv (some "secret")) (keyed "POST" "secret" [] "standup")
      (start []) ∧
    (marshalFailsEnv (some "secret")).unmarshalNewEntity "standup" = ({ raw := "standup" }, none) ∧
    (marshalFailsEnv (some "secret")).validateNewEntity { raw := "standup" } = none ∧
    ((marshalFailsEnv (some "secret")).insertEntity { raw := "standup" } []).1 =
      ({ Id := "n1", rest := "standup" }, none) ∧
    (router (marshalFailsEnv (some "secret")) (keyed "POST" "secret" [] "standup")
      (start [])).1.1.StatusCode = 500 := by
  refine ⟨rfl, ?_, ?_, ?_, ?_⟩ <;> decide

/-- C7 (amended): when the envelope of the entity `e` is encoded without error
into `body`: an authenticated POST whose body decodes and validates and whose
insert returns `e` without error is answered with status 201, body `body` and
the standard headers merged with `Location = "/" ++ ApiPath ++ "/" ++ e.Id`;
an authenticated PUT with an id whose body decodes and validates and whose
update returns `e` without error is answered with status 200, body `body` and
the same headers.  The merged header set binds `Location` and leaves every
other header as in the standard set. -/
theorem C7_created_updated_location (env : Env σ) (req : APIGatewayProxyRequest) (s : Run σ)
    (e : Entity) (body : String)
    (hauth : Authenticated env req s)
    (hj : env.jsonMarshal { Data := Data.entity e, ErrorMessage := none } = (body, none)) :
    (req.HTTPMethod = "POST" → ∀ ne : NewEntity,
      env.unmarshalNewEntity req.Body = (ne, none) →
      env.validateNewEntity ne = none →
      (env.insertEntity ne (afterKey env s).world).1 = (e, none) →
      (router env req s).1.1 =
        { StatusCode := 201
          Body := body
          Headers := mergeHeaders (headers env)
            [("Location", "/" ++ env.ApiPath ++ "/" ++ e.Id)] }) ∧
    (req.HTTPMethod = "PUT" → ∀ (id : String) (ue : UpdatedEntity),
      req.PathParameters.lookup "id" = some id →
      env.unmarshalUpdatedEntity req.Body = (ue, none) →
      env.validateUpdatedEntity ue = none →
      (env.updateEntity id ue (afterKey env s).world).1 = (some e, none) →
      (router env req s).1.1 =
        { StatusCode := 200
          Body := body
          Headers := mergeHeaders (headers env)
            [("Location", "/" ++ env.ApiPath ++ "/" ++ e.Id)] }) ∧
    (mergeHeaders (headers env) [("Location", "/" ++ env.ApiPath ++ "/" ++ e.Id)]).lookup
        "Location" = some ("/" ++ env.ApiPath ++ "/" ++ e.Id) ∧
    (∀ k : String, k ≠ "Location" →
      (mergeHeaders (headers env) [("Location", "/" ++ env.ApiPath ++ "/" ++ e.Id)]).lookup k =
        (headers env).lookup k) := by
  rw [router_of_authenticated env req s hauth]
  refine ⟨?_, ?_, ?_, ?_⟩
  · intro hm ne hd hv hi
    simp [dispatch, hm, processPost, hd, hv, callInsertEntity, hi, hj, location]
  · intro hm id ue hid hd hv hu
    simp [dispatch, hm, processPut, GoMap.commaOk, hid, hd, hv, callUpdateEntity, hu, hj,
      location]
  · rw [mergeHeaders_location]
    simp [List.lookup]
  · intro k hk
    rw [mergeHeaders_location]
    have hk2 : (k == "Location") = false := by simpa using hk
    simp [headers, List.lookup, hk2]

/-- Witness of C7 (amended): a POST of `standup` into the empty store and a
PUT of `retro` onto the stored `e1`. -/
theorem C7_created_updated_location_witness :
    (router (sampleEnv (some "secret") none) (keyed "POST" "secret" [] "standup") (start [])).1.1 =
      { StatusCode := 201
        Body := "n1:standup"
        Headers := [("Access-Control-Allow-Origin", "*"),
                    ("Access-Control-Allow-Headers", "Content-Type"),
                    ("Location", "/events/n1")] } ∧
    (router (sampleEnv (some "secret") none) (keyed "PUT" "secret" [("id", "e1")] "retro")
      (start [ev1])).1.1 =
      { StatusCode := 200
        Body := "e1:retro"
        Headers := [("Access-Control-Allow-Origin", "*"),
                    ("Access-Control-Allow-Headers", "Content-Type"),
                    ("Location", "/events/e1")] } :=
  ⟨(C7_created_updated_location (sampleEnv (some "secret") none)
      (keyed "POST" "secret" [] "standup") (start []) { Id := "n1", rest := "standup" }
      "n1:standup" rfl (by decide)).1 rfl { raw := "standup" } (by decide) (by decide)
      (by decide),
   (C7_created_updated_location (sampleEnv (some "secret") none)
      (keyed "PUT" "secret" [("id", "e1")] "retro") (start [ev1]) { Id := "e1", rest := "retro" }
      "e1:retro" rfl (by decide)).2.1 rfl "e1" { raw := "retro" } (by decide) (by decide)
      (by decide) (by decide)⟩

/-- C9, as stated, fails: the header `X-Api-Key` carries exactly the key
returned by the key provider, the header `x-api-key` carries another value,
and `router` answers 401. -/
theorem C9_counterexample :
    ((sampleEnv (some "secret") none).getApiKey [ev1]).1 = (some "secret", none) ∧
    twoSpellings.Headers.lookup "X-Api-Key" = some "secret" ∧
    (router (sampleEnv (some "secret") none) twoSpellings (start [ev1])).1.1.StatusCode = 401 := by
  decide

/-- C9 (amended): when the key provider returns the key `key` without error
and either `x-api-key` reads as `key` and `key` is not empty, or `x-api-key`
reads as empty (missing or empty) and `X-Api-Key` reads as `key`, then `router`
is the method switch run after the key provider call, and its status is not
401. -/
theorem C9_accepts_fallback_spelling (env : Env σ) (req : APIGatewayProxyRequest) (s : Run σ)
    (key : String)
    (hkey : (env.getApiKey s.world).1 = (some key, none))
    (hhdr : (req.Headers.index "x-api-key" = key ∧ key ≠ "") ∨
      (req.Headers.index "x-api-key" = "" ∧ req.Headers.index "X-Api-Key" = key)) :
    router env req s = dispatch env req (afterKey env s) ∧
    (router env req s).1.1.StatusCode ≠ 401 := by
  have hp : providedApiKey req = key := by
    rcases hhdr with ⟨h1, h2⟩ | ⟨h1, h2⟩
    · simp [providedApiKey, h1, h2]
    · simp [providedApiKey, h1, h2]
  have hr : router env req s = dispatch env req (afterKey env s) := by
    rw [router_of_key env req s key hkey]
    simp [hp]
  refine ⟨hr, ?_⟩
  rw [hr]
  have h := dispatch_status env req (afterKey env s)
  intro h401
  rw [h401] at h
  simp at h

/-- Witness of C9 (amended): the lower-case spelling on an OPTIONS request and
the title-case spelling alone on a PATCH request, both with the key `secret`. -/
theorem C9_accepts_fallback_spelling_witness :
    (router (sampleEnv (some "secret") none) (keyed "OPTIONS" "secret" [] "") (start [ev1])).1.1.StatusCode
      ≠ 401 ∧
    (router (sampleEnv (some "secret") none) (titleCase "PATCH" "secret") (start [ev1])).1.1.StatusCode
      ≠ 401 :=
  ⟨(C9_accepts_fallback_spelling (sampleEnv (some "secret") none) (keyed "OPTIONS" "secret" [] "")
      (start [ev1]) "secret" rfl (Or.inl ⟨rfl, by decide⟩)).2,
   (C9_accepts_fallback_spelling (sampleEnv (some "secret") none) (titleCase "PATCH" "secret")
      (start [ev1]) "secret" rfl (Or.inr ⟨rfl, rfl⟩)).2⟩

/-- C10: for every request and every behaviour of the key provider, store,
decoder, validator and encoder, the response of `router` is complete: status
200 or 201 with a body that is the encoding of an envelope whose
`errorMessage` is null, or the body-less 200 of OPTIONS, or a status among
400, 401, 404, 405, 422, 500 with an empty body; so a status of 400 or more
never comes with a non-empty body. -/
theorem C10_complete_responses (env : Env σ) (req : APIGatewayProxyRequest) (s : Run σ) :
    Complete env req (router env req s).1.1 ∧
    (400 ≤ (router env req s).1.1.StatusCode → (router env req s).1.1.Body = "") ∧
    (router env req s).1.1.StatusCode ∈ [200, 201, 400, 401, 404, 405, 422, 500] := by
  have hc : Complete env req (router env req s).1.1 := by
    unfold router
    split
    · simp [Complete, serverError]
    · simp [Complete, serverError]
    · split
      · simp [Complete, clientError]
      · exact dispatch_complete env req _
  refine ⟨hc, ?_, ?_⟩
  · intro h400
    rcases hc with ⟨d, hs, -⟩ | ⟨-, hs, hb⟩ | ⟨-, hb⟩
    · rcases hs with hs | hs <;> rw [hs] at h400 <;> simp at h400
    · exact hb
    · exact hb
  · rcases hc with ⟨d, hs, -⟩ | ⟨-, hs, -⟩ | ⟨hs, -⟩
    · rcases hs with hs | hs <;> simp [hs]
    · simp [hs]
    · simp at hs
      rcases hs with hs | hs | hs | hs | hs | hs <;> simp [hs]

end Router
